import Mathlib

/-!
Shallow embedding of the authentication core of the Developer Portfolio API
(`src/main.py`, `src/schemas.py`): credential storage, password hashing,
token issuance and verification, the auth gate, registration and login.

The FastAPI routing layer, the MongoDB driver, passlib's bcrypt and
python-jose's JWT implementation are external to `src/`; where their
behaviour decides a property they are modelled from the specification's
component contracts, and each such definition is marked
`Modelled from the spec:` in its doc comment.  Everything else is a direct
translation of the Python in `src/main.py`.
-/

namespace Portfolio

/-- A principal record, both as the `/auth/register` request body and as the
stored document in the `user` collection (`schemas.py`, class `User`):
`username`, `hashed_password`, `role` (defaulting to `"admin"` at the HTTP
layer). In the registration payload the `hashed_password` field carries the
submitted plaintext password, which `register` then hashes. -/
structure User where
  username : String
  hashed_password : String
  role : String
deriving DecidableEq, Repr

/-- The state of the `user` MongoDB collection: a sequence of stored
documents, in insertion order. -/
abbrev UserDb := List User

/-- Embedding of `db["user"].find_one({"username": username})`: the first
stored document whose `username` field equals the filter value, or `none`. -/
def find_one (db : UserDb) (username : String) : Option User :=
  db.find? (fun d => d.username == username)

/-- Modelled from the spec: `database.py` (imported by `main.py` as
`from database import db, create_document, get_documents`) is not part of
`src/`.  Section 6 of the specification describes the storage collaborator
as `insert(collection, document) -> id or DuplicateKeyError` with "a
uniqueness constraint on `username`" for the credential collection, so
insertion of a document whose username is already present fails with a
duplicate-key error and leaves the collection unchanged. -/
inductive StorageError where
  | duplicateKey : StorageError
deriving DecidableEq, Repr

/-- Modelled from the spec: the storage layer's insert for the `user`
collection, with the §6 uniqueness constraint on `username`. -/
def create_document (db : UserDb) (doc : User) : Except StorageError UserDb :=
  if db.any (fun d => d.username == doc.username) then
    .error .duplicateKey
  else
    .ok (db ++ [doc])

/-! ## Password hasher

`get_password_hash` and `verify_password` in `main.py` delegate to
`passlib.context.CryptContext(schemes=["bcrypt"])`.  The bcrypt
implementation is library code outside `src/`, so the hash transform is
modelled from the specification's §4.1 contract: a salted, one-way,
deterministic-format transform whose output embeds the salt, with
`verify(plaintext, hash_string)` true iff `plaintext` was the input that
produced `hash_string`, and false (no exception) on a malformed hash
string.  The salt is made an explicit parameter (in the running code it is
drawn from the process RNG per call). -/

/-- Modelled from the spec: the salted one-way hash (§4.1).  The output is a
modular-crypt-format string `"$2b$12$" ++ salt ++ "$" ++ digest`; the digest
of the idealised one-way function is represented by the preimage itself,
which keeps the model injective per salt.  A bcrypt salt is base64 text and
never contains the `$` separator; well-formedness of the salt is carried as
a hypothesis where a proof needs it. -/
def get_password_hash (salt : String) (password : String) : String :=
  "$2b$12$" ++ salt ++ "$" ++ password

/-- Modelled from the spec: §4.1 `verify(plaintext, hash_string)`.  Parses
the hash string's format header, splits off the embedded salt at the `$`
separator, and compares the remainder against the submitted plaintext.
Returns `false` on a malformed hash string rather than raising. -/
def verify_password (plain_password : String) (hashed_password : String) : Bool :=
  match hashed_password.data with
  | '$' :: '2' :: 'b' :: '$' :: '1' :: '2' :: '$' :: rest =>
    let salt := rest.takeWhile (fun c => c != '$')
    match rest.drop salt.length with
    | '$' :: digest => digest == plain_password.data
    | _ => false
  | _ => false

/-! ## Token codec -/

/-- The claims dictionary carried by a token (`main.py` only ever reads the
`"sub"` claim and writes the `"sub"` and `"exp"` claims; `exp` is an
absolute UTC timestamp in seconds). -/
structure Payload where
  sub : Option String
  exp : Option Nat
deriving DecidableEq, Repr

/-- A bearer-token string as the verifier can observe it: either a
well-formed token — a payload signed under some HS256 key — or a string
that does not parse as a JWT at all. -/
inductive TokenStr where
  | signed (payload : Payload) (key : String) : TokenStr
  | malformed (raw : String) : TokenStr
deriving DecidableEq, Repr

/-- Modelled from the spec: python-jose's error taxonomy as §4.3 names it
(`Malformed`, `SignatureInvalid`, `Expired`), all surfaced to `main.py` as
the single `JWTError` class it catches. -/
inductive JWTError where
  | malformed : JWTError
  | signatureInvalid : JWTError
  | expired : JWTError
deriving DecidableEq, Repr

/-- Modelled from the spec: `jose.jwt.encode(claims, key, algorithm)` —
library code outside `src/` — produces a token signed under `key`
embedding exactly the given claims (§4.3 `issue`). -/
def jwtEncode (payload : Payload) (key : String) : TokenStr :=
  .signed payload key

/-- Modelled from the spec: `jose.jwt.decode(token, key, algorithms)` —
library code outside `src/` — per §4.3: a malformed string fails with
`Malformed`; the signature is checked against `key` before any claim is
trusted, failing with `SignatureInvalid` on mismatch; when an `exp` claim
is present, the token is accepted only if the verifier's current clock is
before `exp`, failing with `Expired` otherwise (§3: "a token is valid only
if the signature verifies under the process's current signing secret AND
the current time is before `expires_at`"). -/
def jwtDecode (token : TokenStr) (key : String) (now : Nat) : Except JWTError Payload :=
  match token with
  | .malformed _ => .error .malformed
  | .signed payload k =>
    if k != key then .error .signatureInvalid
    else match payload.exp with
      | some e => if now < e then .ok payload else .error .expired
      | none => .ok payload

/-- `ACCESS_TOKEN_EXPIRE_MINUTES = 60 * 24` (`main.py` line 15). -/
def ACCESS_TOKEN_EXPIRE_MINUTES : Nat := 60 * 24

/-- The ttl actually applied by `create_access_token`: line 44 of
`main.py` is `expires_delta or timedelta(minutes=ACCESS_TOKEN_EXPIRE_MINUTES)`,
a Python truthiness test, and a zero `timedelta` is falsy — so both `None`
and a zero `expires_delta` select the 24-hour default. -/
def effective_expires_delta (expires_delta : Option Nat) : Nat :=
  match expires_delta with
  | some d => if d = 0 then ACCESS_TOKEN_EXPIRE_MINUTES * 60 else d
  | none => ACCESS_TOKEN_EXPIRE_MINUTES * 60

/-- Embedding of `create_access_token(data, expires_delta)` (`main.py`
lines 42–47): copies the claims, sets `exp` to `now` plus the effective
ttl (the submitted `expires_delta` when that is truthy, the
`ACCESS_TOKEN_EXPIRE_MINUTES` default when it is `None` or zero), and
signs under the process secret.  `now` is the wall clock in seconds and
`expires_delta` the ttl in seconds. -/
def create_access_token (key : String) (now : Nat) (sub : Option String)
    (expires_delta : Option Nat) : TokenStr :=
  jwtEncode { sub := sub, exp := some (now + effective_expires_delta expires_delta) } key

/-! ## HTTP-visible results -/

/-- An `HTTPException` as the caller observes it: status code, detail
message, and any extra response headers. -/
structure HTTPExc where
  status_code : Nat
  detail : String
  headers : List (String × String)
deriving DecidableEq, Repr

/-- The single 401 failure of `get_current_user` (`main.py` lines 50–54). -/
def credentials_exception : HTTPExc :=
  { status_code := 401
    detail := "Could not validate credentials"
    headers := [("WWW-Authenticate", "Bearer")] }

/-- Embedding of `get_current_user` (`main.py` lines 49–67): decode and
verify the bearer token; reject with `credentials_exception` when decoding
fails, when the payload has no `"sub"` claim, or when no stored principal
matches the subject; otherwise return the re-fetched principal. -/
def get_current_user (db : UserDb) (key : String) (now : Nat)
    (token : TokenStr) : Except HTTPExc User :=
  match jwtDecode token key now with
  | .error _ => .error credentials_exception
  | .ok payload =>
    match payload.sub with
    | none => .error credentials_exception
    | some username =>
      match find_one db username with
      | none => .error credentials_exception
      | some doc => .ok doc

/-- The outcome of `register` as the HTTP caller observes it:
`{"message": "registered"}`, an `HTTPException`, or an exception from the
storage layer that `register` does not catch. -/
inductive RegisterOutcome where
  | registered : RegisterOutcome
  | httpError (status : Nat) (detail : String) : RegisterOutcome
  | unhandledStorageError (e : StorageError) : RegisterOutcome
deriving DecidableEq, Repr

/-- The insert phase of `register` (`main.py` lines 130–133): hash the
submitted password, build the document, call `create_document`.  A
storage-layer failure is not caught by `register` and escapes as an
unhandled exception, leaving the collection unchanged. -/
def registerInsert (db : UserDb) (salt : String) (user : User) :
    RegisterOutcome × UserDb :=
  match create_document db
      { username := user.username
        hashed_password := get_password_hash salt user.hashed_password
        role := user.role } with
  | .ok db' => (.registered, db')
  | .error e => (.unhandledStorageError e, db)

/-- Embedding of `register` (`main.py` lines 126–133): if a document with
the submitted username exists, raise `HTTPException(400, "Username already
exists")`; otherwise hash the password and insert the new document. -/
def register (db : UserDb) (salt : String) (user : User) :
    RegisterOutcome × UserDb :=
  if (find_one db user.username).isSome then
    (.httpError 400 "Username already exists", db)
  else
    registerInsert db salt user

/-- The generic login failure of `login` (`main.py` line 139). -/
def incorrectCredentials : HTTPExc :=
  { status_code := 400, detail := "Incorrect username or password", headers := [] }

/-- The success body of `POST /auth/token` (`main.py` lines 30–32, 141). -/
structure TokenResponse where
  access_token : TokenStr
  token_type : String
deriving DecidableEq, Repr

/-- Embedding of `login` (`main.py` lines 135–141): look the username up;
if absent, or if the submitted password does not verify against the stored
hash, raise `HTTPException(400, "Incorrect username or password")`;
otherwise issue a token with `sub` = username and the default ttl. -/
def login (db : UserDb) (key : String) (now : Nat)
    (username password : String) : Except HTTPExc TokenResponse :=
  match find_one db username with
  | none => .error incorrectCredentials
  | some user_doc =>
    if verify_password password user_doc.hashed_password then
      .ok { access_token := create_access_token key now (some username) none
            token_type := "bearer" }
    else
      .error incorrectCredentials

/-- Two registrations of possibly equal usernames racing under the
interleaving in which both existence checks run before either insert: the
check phases both read the initial collection state, then the insert
phases run in order.  Each phase is the corresponding phase of
`register`. -/
def registerRace (db : UserDb) (saltA saltB : String) (userA userB : User) :
    RegisterOutcome × RegisterOutcome × UserDb :=
  let checkA := (find_one db userA.username).isSome
  let checkB := (find_one db userB.username).isSome
  let stepA : RegisterOutcome × UserDb :=
    if checkA then (.httpError 400 "Username already exists", db)
    else registerInsert db saltA userA
  let stepB : RegisterOutcome × UserDb :=
    if checkB then (.httpError 400 "Username already exists", stepA.2)
    else registerInsert stepA.2 saltB userB
  (stepA.1, stepB.1, stepB.2)

/-- Splitting a character list at the first `$` separator: `takeWhile`
returns exactly the separator-free head. -/
theorem takeWhile_neDollar_append (salt tail : List Char)
    (h : ∀ c ∈ salt, c ≠ '$') :
    (salt ++ '$' :: tail).takeWhile (fun c => c != '$') = salt := by
  induction salt with
  | nil => simp [List.takeWhile_cons]
  | cons a l ih =>
    have ha : (a != '$') = true := by
      simpa using h a (List.mem_cons_self a l)
    simp only [List.cons_append, List.takeWhile_cons, ha, if_true]
    rw [ih (fun c hc => h c (List.mem_cons_of_mem a hc))]

/-- The character data of a modelled hash string: format header, then the
salt, then the `$` separator, then the digest. -/
theorem get_password_hash_data (salt p : String) :
    (get_password_hash salt p).data
      = '$' :: '2' :: 'b' :: '$' :: '1' :: '2' :: '$' :: (salt.data ++ '$' :: p.data) := by
  simp [get_password_hash, String.data_append]

/-- Verification of a well-formed hash reduces to comparing the submitted
plaintext against the hashed one (for a `$`-free salt). -/
theorem verify_password_get_password_hash (salt p q : String)
    (h : ∀ c ∈ salt.data, c ≠ '$') :
    verify_password q (get_password_hash salt p) = (p.data == q.data) := by
  unfold verify_password
  rw [get_password_hash_data]
  simp only [takeWhile_neDollar_append salt.data p.data h, List.drop_left]

/-- Two strings with the same character data are equal. -/
theorem string_data_inj {p q : String} (h : p.data = q.data) : p = q := by
  cases p
  cases q
  exact congrArg String.mk h

/-- When no principal with the submitted username is stored, `register`
succeeds and appends exactly one document whose `hashed_password` field is
the hash of the submitted password. -/
theorem register_of_absent (db : UserDb) (salt : String) (user : User)
    (h : find_one db user.username = none) :
    register db salt user =
      (.registered,
       db ++ [{ username := user.username
                hashed_password := get_password_hash salt user.hashed_password
                role := user.role }]) := by
  have hall : ∀ x ∈ db, ¬(x.username == user.username) = true :=
    List.find?_eq_none.mp (by simpa [find_one] using h)
  have hany : db.any (fun d => d.username == user.username) = false :=
    List.any_eq_false.mpr hall
  simp [register, h, registerInsert, create_document, hany]

/-- Claim C7: for every password `p`, verifying `p` against the hash
produced by hashing `p` returns true; and for any two distinct passwords,
verifying one against the hash of the other returns false (in the
idealised spec model of the salted one-way hash, deterministically). -/
theorem hash_verify_roundtrip (salt p1 p2 : String)
    (hsalt : ∀ c ∈ salt.data, c ≠ '$') :
    verify_password p1 (get_password_hash salt p1) = true ∧
    (p1 ≠ p2 → verify_password p1 (get_password_hash salt p2) = false) := by
  constructor
  · rw [verify_password_get_password_hash salt p1 p1 hsalt]
    simp
  · intro hne
    rw [verify_password_get_password_hash salt p2 p1 hsalt]
    simp only [beq_eq_false_iff_ne, ne_eq]
    intro hdq
    exact hne (string_data_inj hdq.symm)

/-- Witness for C7 at a concrete salt and concrete distinct passwords. -/
theorem hash_verify_roundtrip_witness :
    verify_password "secret123" (get_password_hash "N9qo8uLO" "secret123") = true ∧
    ("secret123" ≠ "hunter2" →
      verify_password "secret123" (get_password_hash "N9qo8uLO" "hunter2") = false) :=
  hash_verify_roundtrip "N9qo8uLO" "secret123" "hunter2" (by decide)

/-- Claim C1: a login attempt with an unknown username and a login attempt
with an existing username but a non-verifying password both fail, and both
produce the identical externally-visible error value — status 400 with
detail `"Incorrect username or password"` — revealing nothing about
whether the username exists. -/
theorem login_generic_failure (db : UserDb) (key : String) (now : Nat)
    (u1 p1 u2 p2 : String) (doc : User)
    (h1 : find_one db u1 = none)
    (h2 : find_one db u2 = some doc)
    (h3 : verify_password p2 doc.hashed_password = false) :
    login db key now u1 p1
      = .error { status_code := 400, detail := "Incorrect username or password", headers := [] } ∧
    login db key now u2 p2
      = .error { status_code := 400, detail := "Incorrect username or password", headers := [] } := by
  constructor
  · simp [login, h1, incorrectCredentials]
  · simp [login, h2, h3, incorrectCredentials]

/-- Witness for C1: a login as an unknown user and a login as the stored
user `alice` with a wrong password yield the same error value. -/
theorem login_generic_failure_witness :
    login [{ username := "alice", hashed_password := get_password_hash "N9qo8uLO" "secret123", role := "admin" }]
        "dev-secret" 0 "nouser" "x"
      = .error { status_code := 400, detail := "Incorrect username or password", headers := [] } ∧
    login [{ username := "alice", hashed_password := get_password_hash "N9qo8uLO" "secret123", role := "admin" }]
        "dev-secret" 0 "alice" "wrongpass"
      = .error { status_code := 400, detail := "Incorrect username or password", headers := [] } :=
  login_generic_failure _ "dev-secret" 0 "nouser" "x" "alice" "wrongpass"
    { username := "alice", hashed_password := get_password_hash "N9qo8uLO" "secret123", role := "admin" }
    (by decide) (by decide) (by decide)

/-- Claim C2: every failure of the auth gate — malformed token, invalid
signature, expired token, missing subject claim, and subject with no
stored principal — produces the same externally-visible 401
`credentials_exception` (same detail and `WWW-Authenticate` header); in
fact every non-successful outcome of `get_current_user` is that single
error value. -/
theorem get_current_user_uniform_error (db : UserDb) (key : String) (now : Nat) :
    (∀ raw, get_current_user db key now (.malformed raw) = .error credentials_exception) ∧
    (∀ p k, k ≠ key → get_current_user db key now (.signed p k) = .error credentials_exception) ∧
    (∀ p e, p.exp = some e → e ≤ now →
      get_current_user db key now (.signed p key) = .error credentials_exception) ∧
    (∀ e, now < e →
      get_current_user db key now (.signed { sub := none, exp := some e } key)
        = .error credentials_exception) ∧
    (∀ u e, now < e → find_one db u = none →
      get_current_user db key now (.signed { sub := some u, exp := some e } key)
        = .error credentials_exception) ∧
    (∀ t, (get_current_user db key now t).isOk = true ∨
      get_current_user db key now t = .error credentials_exception) := by
  refine ⟨?_, ?_, ?_, ?_, ?_, ?_⟩
  · intro raw
    simp [get_current_user, jwtDecode]
  · intro p k hk
    have hb : (k != key) = true := by simpa [bne_iff_ne] using hk
    simp [get_current_user, jwtDecode, hb]
  · intro p e he hle
    simp [get_current_user, jwtDecode, he, Nat.not_lt.mpr hle]
  · intro e he
    simp [get_current_user, jwtDecode, he]
  · intro u e he hf
    simp [get_current_user, jwtDecode, he, hf]
  · intro t
    unfold get_current_user
    cases hd : jwtDecode t key now with
    | error je => simp [hd]
    | ok p =>
      cases hs : p.sub with
      | none => simp [hd, hs]
      | some u =>
        cases hf : find_one db u with
        | none => simp [hd, hs, hf]
        | some doc => simp [hd, hs, hf, Except.isOk, Except.toBool]

/-- Witness for C2: all five failure shapes at concrete inputs produce
`credentials_exception`. -/
theorem get_current_user_uniform_error_witness :
    get_current_user [] "dev-secret" 0 (.malformed "garbage") = .error credentials_exception ∧
    get_current_user [] "dev-secret" 0
        (.signed { sub := some "alice", exp := some 100 } "other-key")
      = .error credentials_exception ∧
    get_current_user [] "dev-secret" 0
        (.signed { sub := some "alice", exp := some 0 } "dev-secret")
      = .error credentials_exception ∧
    get_current_user [] "dev-secret" 0
        (.signed { sub := none, exp := some 100 } "dev-secret")
      = .error credentials_exception ∧
    get_current_user [] "dev-secret" 0
        (.signed { sub := some "alice", exp := some 100 } "dev-secret")
      = .error credentials_exception := by
  obtain ⟨w1, w2, w3, w4, w5, _⟩ := get_current_user_uniform_error [] "dev-secret" 0
  exact ⟨w1 "garbage",
    w2 { sub := some "alice", exp := some 100 } "other-key" (by decide),
    w3 { sub := some "alice", exp := some 0 } 0 rfl (by decide),
    w4 100 (by decide),
    w5 "alice" 100 (by decide) rfl⟩

/-- Claim C3: for every subject `s` and ttl `t > 0`, decoding a token
issued with subject `s` and ttl `t` under the same signing secret, while
the clock of the verifier is still before the embedded expiry, succeeds
and yields subject `s`. -/
theorem token_roundtrip (key s : String) (now t now2 : Nat)
    (ht : 0 < t) (hclock : now2 < now + t) :
    jwtDecode (create_access_token key now (some s) (some t)) key now2
      = .ok { sub := some s, exp := some (now + t) } := by
  simp [create_access_token, effective_expires_delta, jwtEncode, jwtDecode,
    hclock, Nat.pos_iff_ne_zero.mp ht]

/-- Witness for C3 at a concrete secret, subject, issue time and ttl. -/
theorem token_roundtrip_witness :
    jwtDecode (create_access_token "dev-secret" 1000 (some "alice") (some 60)) "dev-secret" 1030
      = .ok { sub := some "alice", exp := some 1060 } :=
  token_roundtrip "dev-secret" "alice" 1000 60 1030 (by decide) (by decide)

/-- Claim C4: when a principal with the submitted username is already
stored, `register` fails with status 400 and detail `"Username already
exists"` and leaves the collection unchanged; moreover `register`
preserves uniqueness of usernames, so at most one principal exists per
username. -/
theorem register_duplicate_rejected (db : UserDb) (salt : String) (user : User)
    (doc : User) (h : find_one db user.username = some doc) :
    register db salt user = (.httpError 400 "Username already exists", db) ∧
    ∀ (db2 : UserDb) (salt2 : String) (u2 : User),
      (db2.map User.username).Nodup →
      ((register db2 salt2 u2).2.map User.username).Nodup := by
  constructor
  · simp [register, h]
  · intro db2 salt2 u2 hnd
    cases hf : find_one db2 u2.username with
    | some d => simpa [register, hf] using hnd
    | none =>
      rw [register_of_absent db2 salt2 u2 hf]
      have hall : ∀ x ∈ db2, ¬(x.username == u2.username) = true :=
        List.find?_eq_none.mp (by simpa [find_one] using hf)
      have hnotmem : u2.username ∉ db2.map User.username := by
        intro hmem
        rcases List.mem_map.mp hmem with ⟨x, hx, hxe⟩
        exact hall x hx (by simp [hxe])
      simp only [List.map_append, List.map_cons, List.map_nil]
      rw [List.nodup_append]
      refine ⟨hnd, List.nodup_singleton _, ?_⟩
      intro a ha hb
      rw [List.mem_singleton] at hb
      subst hb
      exact hnotmem ha

/-- Witness for C4: re-registering `alice` fails with the 400 error and
leaves the store unchanged; registering a fresh username preserves
username uniqueness. -/
theorem register_duplicate_rejected_witness :
    register [{ username := "alice", hashed_password := "$2b$12$N9qo8uLO$secret123", role := "admin" }]
        "R3plS4lt" { username := "alice", hashed_password := "hunter2", role := "admin" }
      = (.httpError 400 "Username already exists",
         [{ username := "alice", hashed_password := "$2b$12$N9qo8uLO$secret123", role := "admin" }]) ∧
    ((register [{ username := "bob", hashed_password := "h", role := "admin" }]
        "R3plS4lt" { username := "alice", hashed_password := "hunter2", role := "admin" }).2.map
      User.username).Nodup := by
  obtain ⟨w1, w2⟩ :=
    register_duplicate_rejected
      [{ username := "alice", hashed_password := "$2b$12$N9qo8uLO$secret123", role := "admin" }]
      "R3plS4lt" { username := "alice", hashed_password := "hunter2", role := "admin" }
      { username := "alice", hashed_password := "$2b$12$N9qo8uLO$secret123", role := "admin" }
      (by decide)
  exact ⟨w1,
    w2 [{ username := "bob", hashed_password := "h", role := "admin" }]
      "R3plS4lt" { username := "alice", hashed_password := "hunter2", role := "admin" } (by decide)⟩

/-- Claim C5 (refuting evaluation): under the racy interleaving in which
both existence checks run before either insert, two concurrent
registrations of `alice` give the first process success while the second
process observes an unhandled storage-layer duplicate-key exception — not
the `AlreadyExists` HTTP 400 — because `register` is an application-level
check-then-insert that does not translate storage duplicate-key failures. -/
theorem register_race_check_then_insert :
    registerRace [] "N9qo8uLO" "R3plS4lt"
        { username := "alice", hashed_password := "secret123", role := "admin" }
        { username := "alice", hashed_password := "hunter2", role := "admin" }
      = (.registered, .unhandledStorageError .duplicateKey,
         [{ username := "alice",
            hashed_password := get_password_hash "N9qo8uLO" "secret123",
            role := "admin" }]) := by
  decide

/-- Claim C6 (counterexample): the claim names a token issued with
ttl = 0 as one whose embedded expiry has passed at issue time, but
`expires_delta or timedelta(...)` on line 44 of `main.py` treats a zero
delta as falsy and substitutes the 24-hour default — so a token issued
with ttl 0 carries a full day of validity, verifies successfully at issue
time, and the auth gate resolves an authenticated principal from it,
contradicting the claim that verification fails and never yields a
principal. -/
theorem token_ttl_zero_accepted_cex :
    jwtDecode (create_access_token "dev-secret" 1000 (some "alice") (some 0)) "dev-secret" 1000
      = .ok { sub := some "alice", exp := some (1000 + ACCESS_TOKEN_EXPIRE_MINUTES * 60) } ∧
    get_current_user
        [{ username := "alice", hashed_password := "h", role := "admin" }]
        "dev-secret" 1000
        (create_access_token "dev-secret" 1000 (some "alice") (some 0))
      = .ok { username := "alice", hashed_password := "h", role := "admin" } :=
  ⟨rfl, rfl⟩

/-- Claim C6 (amended): an issued token whose embedded expiry is not after
the clock of the verifier (for example, the clock advanced past the
expiry) fails verification with `Expired`, and the auth gate rejects it
with the 401 `credentials_exception`, never yielding a principal;
moreover any successful verification of an issued token requires both the
matching signing secret and a clock strictly before the embedded expiry.
A ttl of 0 is not an instance of the antecedent: the truthiness test on
line 44 of `main.py` replaces a zero `expires_delta` by the 24-hour
default, so a ttl-0 token is issued with a full day of validity. -/
theorem token_expiry_rejected (db : UserDb) (key : String) (issued now : Nat)
    (sub : Option String) (delta : Option Nat)
    (h : issued + effective_expires_delta delta ≤ now) :
    jwtDecode (create_access_token key issued sub delta) key now = .error .expired ∧
    get_current_user db key now (create_access_token key issued sub delta)
      = .error credentials_exception ∧
    ∀ (key2 : String) (now2 : Nat),
      (jwtDecode (create_access_token key issued sub delta) key2 now2).isOk = true →
        key2 = key ∧ now2 < issued + effective_expires_delta delta := by
  refine ⟨?_, ?_, ?_⟩
  · simp [create_access_token, jwtEncode, jwtDecode, Nat.not_lt.mpr h]
  · simp [get_current_user, create_access_token, jwtEncode, jwtDecode, Nat.not_lt.mpr h]
  · intro key2 now2 hok
    by_cases hk : key = key2
    · subst hk
      by_cases hlt : now2 < issued + effective_expires_delta delta
      · exact ⟨rfl, hlt⟩
      · simp [create_access_token, jwtEncode, jwtDecode, hlt, Except.isOk, Except.toBool] at hok
    · have hb : (key != key2) = true := by simpa [bne_iff_ne] using hk
      simp [create_access_token, jwtEncode, jwtDecode, hb, Except.isOk, Except.toBool] at hok

/-- Witness for the amended C6: a token issued at time 1000 with the
default ttl is rejected once the clock reaches the embedded expiry at
87400, and verifies only under the issuing secret at a clock before that
expiry. -/
theorem token_expiry_rejected_witness :
    jwtDecode (create_access_token "dev-secret" 1000 (some "alice") none) "dev-secret" 87400
      = .error .expired ∧
    get_current_user [] "dev-secret" 87400
        (create_access_token "dev-secret" 1000 (some "alice") none)
      = .error credentials_exception ∧
    ("dev-secret" = "dev-secret" ∧ 1000 < 1000 + effective_expires_delta none) := by
  obtain ⟨w1, w2, w3⟩ :=
    token_expiry_rejected [] "dev-secret" 1000 87400 (some "alice") none (by decide)
  exact ⟨w1, w2, w3 "dev-secret" 1000 (by decide)⟩

/-- Claim C9: every successful registration stores, for the new
principal, exactly the output of the hasher on the submitted password, and
that stored value is never equal to the submitted plaintext itself. -/
theorem register_stores_hash (db : UserDb) (salt : String) (user : User)
    (h : find_one db user.username = none) :
    register db salt user
      = (.registered,
         db ++ [{ username := user.username
                  hashed_password := get_password_hash salt user.hashed_password
                  role := user.role }]) ∧
    get_password_hash salt user.hashed_password ≠ user.hashed_password := by
  refine ⟨register_of_absent db salt user h, ?_⟩
  intro heq
  have hlen := congrArg String.length heq
  simp only [get_password_hash, String.length_append] at hlen
  have h7 : ("$2b$12$" : String).length = 7 := rfl
  have h1 : ("$" : String).length = 1 := rfl
  rw [h7, h1] at hlen
  omega

/-- Witness for C9: registering `alice` with password `secret123` stores
the hash of `secret123`, which differs from the plaintext. -/
theorem register_stores_hash_witness :
    register [] "N9qo8uLO" { username := "alice", hashed_password := "secret123", role := "admin" }
      = (.registered,
         [{ username := "alice",
            hashed_password := get_password_hash "N9qo8uLO" "secret123",
            role := "admin" }]) ∧
    get_password_hash "N9qo8uLO" "secret123" ≠ "secret123" := by
  have w := register_stores_hash [] "N9qo8uLO"
    { username := "alice", hashed_password := "secret123", role := "admin" } (by decide)
  simpa using w

/-- Claim C10: a token that verifies under the current secret and is not
expired but carries no subject claim is rejected by the auth gate with the
same externally-visible 401 `credentials_exception`, and never resolves an
authenticated principal. -/
theorem missing_sub_rejected (db : UserDb) (key : String) (now e : Nat)
    (hexp : now < e) :
    jwtDecode (.signed { sub := none, exp := some e } key) key now
      = .ok { sub := none, exp := some e } ∧
    get_current_user db key now (.signed { sub := none, exp := some e } key)
      = .error credentials_exception := by
  constructor
  · simp [jwtDecode, hexp]
  · simp [get_current_user, jwtDecode, hexp]

/-- Witness for C10 at a concrete secret, clock and expiry. -/
theorem missing_sub_rejected_witness :
    jwtDecode (.signed { sub := none, exp := some 100 } "dev-secret") "dev-secret" 0
      = .ok { sub := none, exp := some 100 } ∧
    get_current_user [] "dev-secret" 0 (.signed { sub := none, exp := some 100 } "dev-secret")
      = .error credentials_exception :=
  missing_sub_rejected [] "dev-secret" 0 100 (by decide)

/-- Claim C8 (counterexample): a 1025-character password is hashed and
stored by `register` without any failure — the code imposes no length cap
and has no `InvalidInput` outcome, contradicting the claim that oversized
input fails with `InvalidInput` rather than being hashed. -/
theorem get_password_hash_no_length_cap_cex :
    1024 < (String.mk (List.replicate 1025 'a')).length ∧
    register [] "N9qo8uLO"
        { username := "alice",
          hashed_password := String.mk (List.replicate 1025 'a'),
          role := "admin" }
      = (.registered,
         [{ username := "alice",
            hashed_password := get_password_hash "N9qo8uLO" (String.mk (List.replicate 1025 'a')),
            role := "admin" }]) := by
  constructor
  · norm_num [String.length, List.length_replicate]
  · rfl

/-- Claim C8 (amended): the password hashing operation never fails, for
input of any length; input longer than 1024 bytes is hashed and stored
like any other password rather than being rejected with `InvalidInput`. -/
theorem register_hashes_oversized_password (db : UserDb) (salt : String) (user : User)
    (hfree : find_one db user.username = none)
    (hlen : 1024 < user.hashed_password.length) :
    register db salt user
      = (.registered,
         db ++ [{ username := user.username
                  hashed_password := get_password_hash salt user.hashed_password
                  role := user.role }]) :=
  register_of_absent db salt user hfree

/-- Witness for the amended C8 at a concrete 1025-character password. -/
theorem register_hashes_oversized_password_witness :
    register [] "R3plS4lt"
        { username := "bob",
          hashed_password := String.mk (List.replicate 1025 'b'),
          role := "admin" }
      = (.registered,
         [{ username := "bob",
            hashed_password := get_password_hash "R3plS4lt" (String.mk (List.replicate 1025 'b')),
            role := "admin" }]) := by
  have w := register_hashes_oversized_password [] "R3plS4lt"
    { username := "bob", hashed_password := String.mk (List.replicate 1025 'b'), role := "admin" }
    rfl (by norm_num [String.length, List.length_replicate])
  simpa using w

end Portfolio
